import Mathlib

/-!
Verification of the Gemma finetuning notebook
(`01_sft_gemma_finetuning_on_vertex.ipynb`).

The notebook is a linear script: configuration collection, a few
precondition assertions, submission of a custom training job, model
upload and endpoint deployment, one prediction request, and resource
clean-up.  Each cell's own logic is embedded below as executable Lean
definitions; the external SDK calls are represented as trace events so
that ordering and "this call never happens" properties can be stated.
-/

/-! ## String helpers (Python `in`, `str.strip`, `os.path.join`) -/

/-- Does `pat` occur at the head of `l`? (helper for substring search). -/
def leadMatch : List Char → List Char → Bool
  | [], _ => true
  | _ :: _, [] => false
  | p :: ps, c :: cs => p == c && leadMatch ps cs

/-- Does `pat` occur anywhere in `l`? (Python `pat in s` on strings). -/
def hasSub (pat : List Char) : List Char → Bool
  | [] => pat.isEmpty
  | c :: cs => leadMatch pat (c :: cs) || hasSub pat cs

/-- Python substring containment `pat in s`. -/
def strHasSub (s pat : String) : Bool := hasSub pat.data s.data

/-- Drop leading whitespace characters. -/
def dropLeadingWS : List Char → List Char
  | [] => []
  | c :: cs => if c.isWhitespace then dropLeadingWS cs else c :: cs

/-- Python `s.strip()`: remove whitespace at both ends. -/
def pyStrip (s : String) : String :=
  String.mk ((dropLeadingWS (dropLeadingWS s.data).reverse).reverse)

/-- Python `s.lower()` (ASCII case folding suffices here). -/
def pyLower (s : String) : String := String.mk (s.data.map Char.toLower)

/-- Python `s.startswith(pat)`. -/
def pyStartsWith (s pat : String) : Bool := leadMatch pat.data s.data

/-- Python `s.endswith(pat)`. -/
def pyEndsWith (s pat : String) : Bool := leadMatch pat.data.reverse s.data.reverse

/-- Python `os.path.join` restricted to two string arguments. -/
def osPathJoin (a b : String) : String :=
  if pyStartsWith b "/" then b
  else if a = "" then b
  else if pyEndsWith a "/" then a ++ b
  else a ++ "/" ++ b

/-! ## Finetune cell: precondition assertions and machine-type selection

Source (Finetune cell):
```
machine_type = None
if "7b" in MODEL_ID:
    assert ACCELERATOR_TYPE != "NVIDIA_TESLA_V100", "..."
    if ACCELERATOR_TYPE == "NVIDIA_L4":
        assert finetuning_precision_mode == "4bit", "..."
if ACCELERATOR_TYPE == "NVIDIA_TESLA_V100":   machine_type = "n1-standard-8"
elif ACCELERATOR_TYPE == "NVIDIA_L4":         machine_type = "g2-standard-12"
elif ACCELERATOR_TYPE == "NVIDIA_TESLA_A100": machine_type = "a2-highgpu-1g"
assert machine_type, f"Cannot automatically determine machine type ..."
```
-/

def msg7bV100 : String :=
  "Finetuning Gemma 7B models is not supported on NVIDIA_TESLA_V100. Try a GPU with more VRAM."

def msg7bL4 (finetuning_precision_mode : String) : String :=
  finetuning_precision_mode ++
    " finetuning of Gemma 7B models is not supported on NVIDIA_L4. Try a GPU with more VRAM or use a different precision mode."

def msgMachine (ACCELERATOR_TYPE : String) : String :=
  "Cannot automatically determine machine type from " ++ ACCELERATOR_TYPE ++ "."

/-- The `if/elif` chain assigning `machine_type` (initialised to `None`). -/
def machineTypeFor (ACCELERATOR_TYPE : String) : Option String :=
  if ACCELERATOR_TYPE = "NVIDIA_TESLA_V100" then some "n1-standard-8"
  else if ACCELERATOR_TYPE = "NVIDIA_L4" then some "g2-standard-12"
  else if ACCELERATOR_TYPE = "NVIDIA_TESLA_A100" then some "a2-highgpu-1g"
  else none

/-- The trailing `assert machine_type` of the Finetune cell. -/
def machineTypeAssert (ACCELERATOR_TYPE : String) : Except String String :=
  match machineTypeFor ACCELERATOR_TYPE with
  | some mt => Except.ok mt
  | none => Except.error (msgMachine ACCELERATOR_TYPE)

/-- Condition of the first assertion (guarded by `if "7b" in MODEL_ID`):
`ACCELERATOR_TYPE != "NVIDIA_TESLA_V100"`.  `true` means the assertion passes. -/
def assert_7b_accel (MODEL_ID ACCELERATOR_TYPE : String) : Bool :=
  if strHasSub MODEL_ID "7b" then !(ACCELERATOR_TYPE == "NVIDIA_TESLA_V100") else true

/-- Condition of the second assertion (guarded by `"7b" in MODEL_ID` and
`ACCELERATOR_TYPE == "NVIDIA_L4"`): `finetuning_precision_mode == "4bit"`. -/
def assert_7b_l4_precision
    (MODEL_ID ACCELERATOR_TYPE finetuning_precision_mode : String) : Bool :=
  if strHasSub MODEL_ID "7b" && (ACCELERATOR_TYPE == "NVIDIA_L4") then
    finetuning_precision_mode == "4bit"
  else true

/-- All pre-submission validation of the Finetune cell, run in source order:
the two 7B assertions, then the machine-type chain and its assertion.
Returns the selected machine type, or the first failing assertion's message. -/
def finetuneValidate
    (MODEL_ID ACCELERATOR_TYPE finetuning_precision_mode : String) :
    Except String String :=
  if strHasSub MODEL_ID "7b" then
    if ACCELERATOR_TYPE = "NVIDIA_TESLA_V100" then Except.error msg7bV100
    else if ACCELERATOR_TYPE = "NVIDIA_L4" ∧ ¬ finetuning_precision_mode = "4bit" then
      Except.error (msg7bL4 finetuning_precision_mode)
    else machineTypeAssert ACCELERATOR_TYPE
  else machineTypeAssert ACCELERATOR_TYPE

/-- C1: for every MODEL_ID containing "7b", the validation rejects
NVIDIA_TESLA_V100 with the 7B assertion message while the 7B/accelerator
check itself passes for NVIDIA_L4 and NVIDIA_TESLA_A100; for a MODEL_ID
not containing "7b" the check passes for all three accelerator types. -/
theorem c1_sevenb_accel_check (m p : String) :
    (strHasSub m "7b" = true →
      finetuneValidate m "NVIDIA_TESLA_V100" p = Except.error msg7bV100) ∧
    assert_7b_accel m "NVIDIA_L4" = true ∧
    assert_7b_accel m "NVIDIA_TESLA_A100" = true ∧
    (strHasSub m "7b" = false →
      assert_7b_accel m "NVIDIA_TESLA_V100" = true) := by
  refine ⟨fun h => ?_, ?_, ?_, fun h => ?_⟩ <;>
    simp [finetuneValidate, assert_7b_accel, *]

/-- Witness for C1 at MODEL_ID = "gemma-7b". -/
theorem c1_sevenb_accel_check_witness :
    finetuneValidate "gemma-7b" "NVIDIA_TESLA_V100" "4bit" = Except.error msg7bV100 ∧
    assert_7b_accel "gemma-7b" "NVIDIA_L4" = true ∧
    assert_7b_accel "gemma-7b" "NVIDIA_TESLA_A100" = true :=
  ⟨(c1_sevenb_accel_check "gemma-7b" "4bit").1 rfl,
   (c1_sevenb_accel_check "gemma-7b" "4bit").2.1,
   (c1_sevenb_accel_check "gemma-7b" "4bit").2.2.1⟩

/-- C2: with a "7b" MODEL_ID on NVIDIA_L4 the validation fails with the
precision-mode assertion message unless the precision mode is "4bit"
(and succeeds with machine type g2-standard-12 when it is "4bit");
with NVIDIA_TESLA_A100 every precision mode in the notebook's menu
("4bit", "8bit", "float16") passes validation. -/
theorem c2_l4_precision_check (m p : String) (h : strHasSub m "7b" = true) :
    (¬ p = "4bit" →
      finetuneValidate m "NVIDIA_L4" p = Except.error (msg7bL4 p)) ∧
    (p = "4bit" →
      finetuneValidate m "NVIDIA_L4" p = Except.ok "g2-standard-12") ∧
    ((p = "4bit" ∨ p = "8bit" ∨ p = "float16") →
      finetuneValidate m "NVIDIA_TESLA_A100" p = Except.ok "a2-highgpu-1g") := by
  refine ⟨fun hp => ?_, fun hp => ?_, fun _ => ?_⟩ <;>
    simp [finetuneValidate, machineTypeAssert, machineTypeFor, *]

/-- Witness for C2 at MODEL_ID = "gemma-7b", precision mode "float16". -/
theorem c2_l4_precision_check_witness :
    finetuneValidate "gemma-7b" "NVIDIA_L4" "float16" =
      Except.error (msg7bL4 "float16") ∧
    finetuneValidate "gemma-7b" "NVIDIA_TESLA_A100" "float16" =
      Except.ok "a2-highgpu-1g" :=
  ⟨(c2_l4_precision_check "gemma-7b" "float16" rfl).1 (by decide),
   (c2_l4_precision_check "gemma-7b" "float16" rfl).2.2 (Or.inr (Or.inr rfl))⟩

/-- C4: the accelerator-to-machine-type chain is total on the three
allowed accelerators with the stated machine types, and for any other
accelerator value `machine_type` stays `None` so the final assertion of
the Finetune cell fails with the "Cannot automatically determine machine
type" message (for every model id and precision mode, since the earlier
7B assertions cannot fire on such an accelerator). -/
theorem c4_machine_type_mapping (a m p : String)
    (h : ¬ a = "NVIDIA_TESLA_V100" ∧ ¬ a = "NVIDIA_L4" ∧ ¬ a = "NVIDIA_TESLA_A100") :
    machineTypeFor "NVIDIA_TESLA_V100" = some "n1-standard-8" ∧
    machineTypeFor "NVIDIA_L4" = some "g2-standard-12" ∧
    machineTypeFor "NVIDIA_TESLA_A100" = some "a2-highgpu-1g" ∧
    machineTypeFor a = none ∧
    finetuneValidate m a p = Except.error (msgMachine a) := by
  obtain ⟨h1, h2, h3⟩ := h
  refine ⟨by simp [machineTypeFor], by simp [machineTypeFor],
    by simp [machineTypeFor], ?_, ?_⟩ <;>
    simp [finetuneValidate, machineTypeAssert, machineTypeFor, h1, h2, h3]

/-- Witness for C4 at accelerator "NVIDIA_TESLA_T4". -/
theorem c4_machine_type_mapping_witness :
    machineTypeFor "NVIDIA_TESLA_T4" = none ∧
    finetuneValidate "gemma-2b" "NVIDIA_TESLA_T4" "4bit" =
      Except.error (msgMachine "NVIDIA_TESLA_T4") :=
  ⟨(c4_machine_type_mapping "NVIDIA_TESLA_T4" "gemma-2b" "4bit"
      (by refine ⟨?_, ?_, ?_⟩ <;> decide)).2.2.2.1,
   (c4_machine_type_mapping "NVIDIA_TESLA_T4" "gemma-2b" "4bit"
      (by refine ⟨?_, ?_, ?_⟩ <;> decide)).2.2.2.2⟩

/-! ## Helper method `get_job_name_with_datetime`

Source:
```
def get_job_name_with_datetime(prefix: str) -> str:
  return prefix + datetime.now().strftime("_%Y%m%d_%H%M%S")
```
The clock reading is made explicit as a `DateTime` value; `strftime` is
embedded for the directives used by the notebook's format string. -/

/-- One clock reading (the fields of Python `datetime.now()` that
`"_%Y%m%d_%H%M%S"` consumes). -/
structure DateTime where
  year : Nat
  month : Nat
  day : Nat
  hour : Nat
  minute : Nat
  second : Nat

/-- Decimal digits of `n` (as characters). -/
def natDigits (n : Nat) : List Char := Nat.toDigits 10 n

/-- Zero-pad the decimal form of `n` to width `w` (strftime padding). -/
def zeroPad (w n : Nat) : List Char :=
  List.replicate (w - (natDigits n).length) '0' ++ natDigits n

/-- strftime field substitution for the directives `%Y %m %d %H %M %S`;
any other directive is left verbatim. -/
def strfField (t : DateTime) (c : Char) : List Char :=
  if c = 'Y' then zeroPad 4 t.year
  else if c = 'm' then zeroPad 2 t.month
  else if c = 'd' then zeroPad 2 t.day
  else if c = 'H' then zeroPad 2 t.hour
  else if c = 'M' then zeroPad 2 t.minute
  else if c = 'S' then zeroPad 2 t.second
  else ['%', c]

/-- `strftime` over the format string's characters. -/
def strftimeChars (t : DateTime) : List Char → List Char
  | [] => []
  | '%' :: c :: rest => strfField t c ++ strftimeChars t rest
  | c :: rest => c :: strftimeChars t rest

/-- Python `t.strftime(fmt)` for the directives used by the notebook. -/
def strftime (fmt : String) (t : DateTime) : String :=
  String.mk (strftimeChars t fmt.data)

/-- `get_job_name_with_datetime` with the clock reading `now` explicit. -/
def get_job_name_with_datetime (now : DateTime) (pre : String) : String :=
  pre ++ strftime "_%Y%m%d_%H%M%S" now

/-- Finetune cell: `job_name = get_job_name_with_datetime("gemma-lora-train")`. -/
def job_name (t : DateTime) : String := get_job_name_with_datetime t "gemma-lora-train"

/-- Finetune cell: `lora_adapter_dir = get_job_name_with_datetime("gemma-lora-adapter")`. -/
def lora_adapter_dir (t : DateTime) : String :=
  get_job_name_with_datetime t "gemma-lora-adapter"

/-- Finetune cell: `merged_model_dir = get_job_name_with_datetime("gemma-merged-model")`. -/
def merged_model_dir (t : DateTime) : String :=
  get_job_name_with_datetime t "gemma-merged-model"

/-- Spec-side rendering of the claimed name shape: the prefix, an
underscore, and the time as YYYYMMDD_HHMMSS. -/
def specNameFormat (t : DateTime) (pre : String) : String :=
  pre ++ "_" ++
    String.mk (zeroPad 4 t.year ++ zeroPad 2 t.month ++ zeroPad 2 t.day) ++ "_" ++
    String.mk (zeroPad 2 t.hour ++ zeroPad 2 t.minute ++ zeroPad 2 t.second)

theorem stringEq_of_data {a b : String} (h : a.data = b.data) : a = b :=
  congrArg String.mk h

/-- C5: for every prefix and every fixed clock reading,
`get_job_name_with_datetime` returns exactly the prefix, an underscore,
and the time formatted YYYYMMDD_HHMMSS — a deterministic function of the
two — and the job name, adapter directory and merged-model directory are
built this way from the three fixed prefixes. -/
theorem c5_job_name_format (t : DateTime) (pre : String) :
    get_job_name_with_datetime t pre = specNameFormat t pre ∧
    job_name t = get_job_name_with_datetime t "gemma-lora-train" ∧
    lora_adapter_dir t = get_job_name_with_datetime t "gemma-lora-adapter" ∧
    merged_model_dir t = get_job_name_with_datetime t "gemma-merged-model" := by
  refine ⟨?_, rfl, rfl, rfl⟩
  apply stringEq_of_data
  have hstep : ∀ a b : String, (a ++ b).data = a.data ++ b.data := fun a b => rfl
  show pre.data ++ strftimeChars t ("_%Y%m%d_%H%M%S").data = _
  rw [show strftimeChars t ("_%Y%m%d_%H%M%S").data =
      '_' :: (zeroPad 4 t.year ++ (zeroPad 2 t.month ++ (zeroPad 2 t.day ++
        ('_' :: (zeroPad 2 t.hour ++ (zeroPad 2 t.minute ++
          (zeroPad 2 t.second ++ ([] : List Char)))))))) from rfl]
  simp [specNameFormat, hstep, List.append_assoc]

/-! ## Finetune cell as a trace of SDK calls

The cell runs its assertions first, then constructs
`aiplatform.CustomContainerTrainingJob(...)` and calls
`train_job.run(...)`.  A raised `AssertionError` aborts the cell, so on
a failing configuration neither SDK call is issued. -/

/-- The configuration values the Finetune cell reads.  Float-valued
parameters (`learning_rate`, `lora_dropout`) are carried as their
Python string rendering, which is all the cell uses them for. -/
structure FinetuneParams where
  MODEL_ID : String
  ACCELERATOR_TYPE : String
  finetuning_precision_mode : String
  dataset_name : String
  instruct_column_in_dataset : String
  per_device_train_batch_size : Nat
  max_steps : Nat
  learning_rate : String
  lora_rank : Nat
  lora_alpha : Nat
  lora_dropout : String
  HF_TOKEN : String
  STAGING_BUCKET : String

/-- `TRAIN_DOCKER_URI` from the setup cell. -/
def TRAIN_DOCKER_URI : String :=
  "us-docker.pkg.dev/vertex-ai/vertex-vision-model-garden-dockers/pytorch-peft-train:20240220_0936_RC01"

/-- `base_model_path_prefix = "google/"` from the Finetune cell. -/
def base_model_path : String := "google/"

/-- `base_model_id = os.path.join(base_model_path_prefix, MODEL_ID)`. -/
def base_model_id (MODEL_ID : String) : String := osPathJoin base_model_path MODEL_ID

/-- `template = ""` (no data template). -/
def template : String := ""

/-- `lora_output_dir = os.path.join(STAGING_BUCKET, lora_adapter_dir)`. -/
def lora_output_dir (p : FinetuneParams) (t : DateTime) : String :=
  osPathJoin p.STAGING_BUCKET (lora_adapter_dir t)

/-- `merged_model_output_dir = os.path.join(STAGING_BUCKET, merged_model_dir)`. -/
def merged_model_output_dir (p : FinetuneParams) (t : DateTime) : String :=
  osPathJoin p.STAGING_BUCKET (merged_model_dir t)

/-- The `args=[...]` list passed to `train_job.run`, in source order. -/
def trainJobArgs (p : FinetuneParams) (t : DateTime) : List String :=
  [ "--task=instruct-lora",
    "--pretrained_model_id=" ++ base_model_id p.MODEL_ID,
    "--dataset_name=" ++ p.dataset_name,
    "--instruct_column_in_dataset=" ++ p.instruct_column_in_dataset,
    "--output_dir=" ++ lora_output_dir p t,
    "--merge_base_and_lora_output_dir=" ++ merged_model_output_dir p t,
    "--per_device_train_batch_size=" ++ toString p.per_device_train_batch_size,
    "--lora_rank=" ++ toString p.lora_rank,
    "--lora_alpha=" ++ toString p.lora_alpha,
    "--lora_dropout=" ++ p.lora_dropout,
    "--max_steps=" ++ toString p.max_steps,
    "--max_seq_length=512",
    "--learning_rate=" ++ p.learning_rate,
    "--precision_mode=" ++ p.finetuning_precision_mode,
    "--template=" ++ template,
    "--huggingface_access_token=" ++ p.HF_TOKEN ]

/-- The two SDK calls the Finetune cell can issue. -/
inductive SdkCall where
  | customContainerTrainingJob (display_name container_uri : String)
  | trainJobRun (args : List String)
      (machine_type accelerator_type : String) (accelerator_count : Nat)
  deriving DecidableEq

/-- The Finetune cell: assertions in source order, then job construction
and submission.  Result: the SDK calls issued, and the assertion message
when the cell aborts. -/
def finetuneCell (p : FinetuneParams) (t : DateTime) :
    List SdkCall × Option String :=
  match finetuneValidate p.MODEL_ID p.ACCELERATOR_TYPE p.finetuning_precision_mode with
  | Except.error e => ([], some e)
  | Except.ok machine_type =>
      ([ SdkCall.customContainerTrainingJob (job_name t) TRAIN_DOCKER_URI,
         SdkCall.trainJobRun (trainJobArgs p t) machine_type p.ACCELERATOR_TYPE 1 ],
       none)

/-- C6: every precondition assertion is evaluated before the training
job is created or submitted: on a configuration failing validation, the
Finetune cell issues no SDK call at all (neither
`CustomContainerTrainingJob` nor `train_job.run`) and aborts with the
assertion's message. -/
theorem c6_asserts_before_submission (p : FinetuneParams) (t : DateTime) (e : String)
    (h : finetuneValidate p.MODEL_ID p.ACCELERATOR_TYPE p.finetuning_precision_mode =
      Except.error e) :
    finetuneCell p t = ([], some e) := by
  simp [finetuneCell, h]

/-- Witness for C6 at the failing configuration gemma-7b on NVIDIA_TESLA_V100. -/
theorem c6_asserts_before_submission_witness :
    finetuneCell
      { MODEL_ID := "gemma-7b", ACCELERATOR_TYPE := "NVIDIA_TESLA_V100",
        finetuning_precision_mode := "4bit",
        dataset_name := "timdettmers/openassistant-guanaco",
        instruct_column_in_dataset := "text",
        per_device_train_batch_size := 1, max_steps := 10,
        learning_rate := "0.0002", lora_rank := 4, lora_alpha := 64,
        lora_dropout := "0.1", HF_TOKEN := "tok",
        STAGING_BUCKET := "gs://bucket/temporal" }
      ⟨2024, 1, 2, 3, 4, 5⟩ = ([], some msg7bV100) :=
  c6_asserts_before_submission
    { MODEL_ID := "gemma-7b", ACCELERATOR_TYPE := "NVIDIA_TESLA_V100",
      finetuning_precision_mode := "4bit",
      dataset_name := "timdettmers/openassistant-guanaco",
      instruct_column_in_dataset := "text",
      per_device_train_batch_size := 1, max_steps := 10,
      learning_rate := "0.0002", lora_rank := 4, lora_alpha := 64,
      lora_dropout := "0.1", HF_TOKEN := "tok",
      STAGING_BUCKET := "gs://bucket/temporal" }
    ⟨2024, 1, 2, 3, 4, 5⟩ msg7bV100 rfl

/-! ## Clean-up cell

Source (setup cell): `models, endpoints = {}, {}`.
Source (Deploy cell): `model, endpoint = deploy_model_vllm(...)` — plain
variable bindings; neither dictionary is ever written to.
Source (Clean up resources cell):
```
train_job.delete()
for endpoint in endpoints.values():
    endpoint.delete(force=True)
for model in models.values():
    model.delete()
```
-/

/-- `models = {}` from the setup cell (never subsequently written). -/
def modelsDict : List (String × String) := []

/-- `endpoints = {}` from the setup cell (never subsequently written). -/
def endpointsDict : List (String × String) := []

/-- The Deploy cell binds `model, endpoint = deploy_model_vllm(...)` into
plain variables and leaves both dictionaries unchanged. -/
def dictsAfterDeploy : List (String × String) × List (String × String) :=
  (modelsDict, endpointsDict)

/-- The delete calls the clean-up cell can issue. -/
inductive CleanupCall where
  | deleteTrainJob
  | deleteEndpoint (name : String)
  | deleteModel (name : String)
  deriving DecidableEq

/-- The clean-up cell: delete the train job, then every endpoint in
`endpoints.values()`, then every model in `models.values()`. -/
def cleanupCalls : List CleanupCall :=
  [CleanupCall.deleteTrainJob]
    ++ dictsAfterDeploy.2.map (fun kv => CleanupCall.deleteEndpoint kv.2)
    ++ dictsAfterDeploy.1.map (fun kv => CleanupCall.deleteModel kv.2)

/-- C3 (refuting evaluation): the clean-up cell deletes only the training
job; because `models` and `endpoints` stay empty, no endpoint-delete and
no model-delete call is ever issued, so the endpoint and model created by
`deploy_model_vllm` are not torn down. -/
theorem c3_cleanup_leaves_endpoint_and_model :
    cleanupCalls = [CleanupCall.deleteTrainJob] ∧
    (∀ e : String, CleanupCall.deleteEndpoint e ∉ cleanupCalls) ∧
    (∀ m : String, CleanupCall.deleteModel m ∉ cleanupCalls) := by
  refine ⟨rfl, fun e => ?_, fun m => ?_⟩ <;>
    simp [cleanupCalls, dictsAfterDeploy, modelsDict, endpointsDict]

/-! ## Helper method `deploy_model_vllm`

The function's body is straight-line: `aiplatform.Endpoint.create` runs
first, then `aiplatform.Model.upload`, then `model.deploy`; the only
`try/except` guards the `HF_TOKEN` lookup, so an exception from upload or
deploy propagates out with the endpoint already created and no delete
issued.  The two Booleans make the external failure of upload/deploy
explicit. -/

/-- The platform calls `deploy_model_vllm` can issue. -/
inductive PlatformCall where
  | endpointCreate (display_name : String)
  | modelUpload (display_name : String)
  | modelDeploy (machine_type accelerator_type : String) (accelerator_count : Nat)
  | endpointDelete (display_name : String)
  deriving DecidableEq

/-- `env_vars` of `deploy_model_vllm`: MODEL_ID and DEPLOY_SOURCE, plus
HF_TOKEN when the (defined) token is truthy, i.e. non-empty. -/
def deployEnvVars (base_model_id_arg HF_TOKEN : String) : List (String × String) :=
  let env := [("MODEL_ID", base_model_id_arg), ("DEPLOY_SOURCE", "notebook")]
  if ¬ HF_TOKEN = "" then env ++ [("HF_TOKEN", HF_TOKEN)] else env

/-- `deploy_model_vllm` as a trace: the calls issued in source order and
whether the function returned normally, given whether `Model.upload`
resp. `model.deploy` raises. -/
def deploy_model_vllm_calls (model_name machine_type accelerator_type : String)
    (accelerator_count : Nat) (uploadRaises deployRaises : Bool) :
    List PlatformCall × Bool :=
  let created := PlatformCall.endpointCreate (model_name ++ "-endpoint")
  if uploadRaises then ([created], false)
  else if deployRaises then ([created, PlatformCall.modelUpload model_name], false)
  else ([created, PlatformCall.modelUpload model_name,
         PlatformCall.modelDeploy machine_type accelerator_type accelerator_count],
        true)

/-- C8: `deploy_model_vllm` creates the endpoint named
`<model_name>-endpoint` before uploading the model, so when upload or
deploy raises, the function fails after the endpoint already exists and
it never issues a delete for it. -/
theorem c8_endpoint_created_first
    (model_name mt at_ : String) (n : Nat) (u d : Bool)
    (h : u = true ∨ d = true) :
    (deploy_model_vllm_calls model_name mt at_ n u d).1.head? =
      some (PlatformCall.endpointCreate (model_name ++ "-endpoint")) ∧
    (deploy_model_vllm_calls model_name mt at_ n u d).2 = false ∧
    PlatformCall.endpointCreate (model_name ++ "-endpoint")
      ∈ (deploy_model_vllm_calls model_name mt at_ n u d).1 ∧
    (∀ s : String, PlatformCall.endpointDelete s
      ∉ (deploy_model_vllm_calls model_name mt at_ n u d).1) := by
  cases u <;> cases d <;>
    simp_all [deploy_model_vllm_calls]

/-- Witness for C8: `Model.upload` raising for the deploy cell's model name. -/
theorem c8_endpoint_created_first_witness :
    (deploy_model_vllm_calls "gemma-vllm-serve" "g2-standard-12" "NVIDIA_L4" 1
        true false).1.head? =
      some (PlatformCall.endpointCreate "gemma-vllm-serve-endpoint") ∧
    (deploy_model_vllm_calls "gemma-vllm-serve" "g2-standard-12" "NVIDIA_L4" 1
        true false).2 = false :=
  ⟨(c8_endpoint_created_first "gemma-vllm-serve" "g2-standard-12" "NVIDIA_L4" 1
      true false (Or.inl rfl)).1,
   (c8_endpoint_created_first "gemma-vllm-serve" "g2-standard-12" "NVIDIA_L4" 1
      true false (Or.inl rfl)).2.1⟩

/-! ## Predict cell -/

/-- A JSON-like value in a prediction instance (floats appear only as
opaque rational parameter values here). -/
inductive JVal where
  | s (v : String)
  | n (v : Nat)
  | q (v : Rat)
  deriving DecidableEq

/-- The `instances` list of the Predict cell: one object with the prompt
wrapped in the training template and the four sampling parameters. -/
def predictInstances (prompt : String) (max_tokens : Nat)
    (temperature top_p : Rat) (top_k : Nat) : List (List (String × JVal)) :=
  [ [ ("prompt", JVal.s ("### Human: " ++ prompt ++ "### Assistant: ")),
      ("max_tokens", JVal.n max_tokens),
      ("temperature", JVal.q temperature),
      ("top_p", JVal.q top_p),
      ("top_k", JVal.n top_k) ] ]

/-- The calls the Predict cell issues. -/
inductive PredictCall where
  | predictReq (instances : List (List (String × JVal)))
  deriving DecidableEq

/-- The Predict cell: build `instances`, then
`response = endpoint.predict(instances=instances)` — one call. -/
def predictCellCalls (prompt : String) (max_tokens : Nat)
    (temperature top_p : Rat) (top_k : Nat) : List PredictCall :=
  [PredictCall.predictReq (predictInstances prompt max_tokens temperature top_p top_k)]

/-- C7: the Predict cell makes exactly one `endpoint.predict` call, whose
`instances` list holds a single object whose keys are exactly `prompt`,
`max_tokens`, `temperature`, `top_p`, `top_k`, with the prompt wrapped as
`### Human: <prompt>### Assistant: `. -/
theorem c7_single_predict_request (prompt : String) (max_tokens : Nat)
    (temperature top_p : Rat) (top_k : Nat) :
    predictCellCalls prompt max_tokens temperature top_p top_k =
      [PredictCall.predictReq (predictInstances prompt max_tokens temperature top_p top_k)] ∧
    (predictCellCalls prompt max_tokens temperature top_p top_k).length = 1 ∧
    (predictInstances prompt max_tokens temperature top_p top_k).length = 1 ∧
    ((predictInstances prompt max_tokens temperature top_p top_k).headD []).map Prod.fst =
      ["prompt", "max_tokens", "temperature", "top_p", "top_k"] ∧
    ((predictInstances prompt max_tokens temperature top_p top_k).headD []).lookup "prompt" =
      some (JVal.s ("### Human: " ++ prompt ++ "### Assistant: ")) := by
  refine ⟨rfl, rfl, rfl, rfl, ?_⟩
  simp [predictInstances]

/-! ## Bucket setup cell

Source:
```
if BUCKET_URI is None or BUCKET_URI.strip() == "" or BUCKET_URI == "gs://":
    BUCKET_URI = f"gs://{PROJECT_ID}-tmp-{now}"
    ! gsutil mb -l {REGION} {BUCKET_URI}
else:
    assert BUCKET_URI.startswith("gs://"), "BUCKET_URI must start with `gs://`."
    ...
    bucket_region = shell_output[0].strip().lower()
    if bucket_region != REGION:
        raise ValueError("Bucket region %s is different from notebook region %s" ...)
```
`aiplatform.init` runs in a later cell, so an exception here precedes it.
-/

/-- `REGION` from the setup cell (its only selectable value). -/
def REGION : String := "europe-west4"

def msgBucketAssert : String := "BUCKET_URI must start with `gs://`."

def msgBucketRegion (bucket_region : String) : String :=
  "Bucket region " ++ bucket_region ++ " is different from notebook region " ++ REGION

/-- Outcome of the bucket setup cell. -/
inductive BucketOutcome where
  | createdFresh (uri : String)
  | assertionFailed (msg : String)
  | valueErrorRaised (msg : String)
  | usingExisting (uri : String)
  deriving DecidableEq

/-- The bucket setup cell.  `BUCKET_URI` is the user-supplied value
(`none` models Python `None`); `bucket_location` is the raw
`Location constraint:` shell output for the existing bucket. -/
def bucketCell (BUCKET_URI : Option String)
    (bucket_location PROJECT_ID now : String) : BucketOutcome :=
  let fresh := "gs://" ++ PROJECT_ID ++ "-tmp-" ++ now
  match BUCKET_URI with
  | none => BucketOutcome.createdFresh fresh
  | some u =>
    if pyStrip u = "" ∨ u = "gs://" then BucketOutcome.createdFresh fresh
    else if !(pyStartsWith u "gs://") then BucketOutcome.assertionFailed msgBucketAssert
    else
      let bucket_region := pyLower (pyStrip bucket_location)
      if ¬ bucket_region = REGION then
        BucketOutcome.valueErrorRaised (msgBucketRegion bucket_region)
      else BucketOutcome.usingExisting u

/-- The externally visible steps of the setup cells, in cell order. -/
inductive SetupCall where
  | gsutilMakeBucket (uri : String)
  | vertexInit
  deriving DecidableEq

/-- The setup cells run sequentially: the bucket cell, then (only if it
did not raise) the cell calling `aiplatform.init`. -/
def setupCells (BUCKET_URI : Option String)
    (bucket_location PROJECT_ID now : String) : List SetupCall × Option String :=
  match bucketCell BUCKET_URI bucket_location PROJECT_ID now with
  | BucketOutcome.createdFresh uri =>
      ([SetupCall.gsutilMakeBucket uri, SetupCall.vertexInit], none)
  | BucketOutcome.usingExisting _ => ([SetupCall.vertexInit], none)
  | BucketOutcome.assertionFailed m => ([], some m)
  | BucketOutcome.valueErrorRaised m => ([], some m)

/-- C9: for a user-supplied BUCKET_URI that is not None, not blank and
not exactly "gs://", the setup raises an AssertionError when it does not
start with "gs://" and a ValueError when the bucket's region differs
case-insensitively from REGION, in both cases before `aiplatform.init`
runs; such a BUCKET_URI never triggers fresh-bucket creation, while a
None, blank or bare "gs://" value yields the fresh timestamped bucket. -/
theorem c9_bucket_validation (u bucket_location PROJECT_ID now : String)
    (hblank : ¬ pyStrip u = "") (hgs : ¬ u = "gs://") :
    (pyStartsWith u "gs://" = false →
      bucketCell (some u) bucket_location PROJECT_ID now =
        BucketOutcome.assertionFailed msgBucketAssert ∧
      SetupCall.vertexInit ∉ (setupCells (some u) bucket_location PROJECT_ID now).1) ∧
    (pyStartsWith u "gs://" = true →
      ¬ pyLower (pyStrip bucket_location) = pyLower REGION →
      bucketCell (some u) bucket_location PROJECT_ID now =
        BucketOutcome.valueErrorRaised (msgBucketRegion (pyLower (pyStrip bucket_location))) ∧
      SetupCall.vertexInit ∉ (setupCells (some u) bucket_location PROJECT_ID now).1) ∧
    (∀ v : String, ¬ bucketCell (some u) bucket_location PROJECT_ID now =
        BucketOutcome.createdFresh v) ∧
    bucketCell none bucket_location PROJECT_ID now =
      BucketOutcome.createdFresh ("gs://" ++ PROJECT_ID ++ "-tmp-" ++ now) ∧
    (∀ w : String, pyStrip w = "" ∨ w = "gs://" →
      bucketCell (some w) bucket_location PROJECT_ID now =
        BucketOutcome.createdFresh ("gs://" ++ PROJECT_ID ++ "-tmp-" ++ now)) := by
  have hreg : pyLower REGION = REGION := by decide
  refine ⟨fun hs => ?_, fun hs hr => ?_, fun v => ?_, rfl, fun w hw => ?_⟩
  · constructor <;> simp [bucketCell, setupCells, hblank, hgs, hs]
  · rw [hreg] at hr
    constructor <;> simp [bucketCell, setupCells, hblank, hgs, hs, hr]
  · by_cases hs : pyStartsWith u "gs://" <;>
      by_cases hr : pyLower (pyStrip bucket_location) = REGION <;>
      simp [bucketCell, hblank, hgs, hs, hr]
  · rcases hw with hw | hw <;> simp [bucketCell, hw]

/-- Witness for C9: a non-gs URI fails the assertion; a gs URI over a
bucket in another region raises the ValueError. -/
theorem c9_bucket_validation_witness :
    bucketCell (some "s3://bucket") "europe-west4" "proj" "20240101000000" =
      BucketOutcome.assertionFailed msgBucketAssert ∧
    bucketCell (some "gs://bucket") " US-EAST1 " "proj" "20240101000000" =
      BucketOutcome.valueErrorRaised (msgBucketRegion "us-east1") :=
  ⟨((c9_bucket_validation "s3://bucket" "europe-west4" "proj" "20240101000000"
      (by decide) (by decide)).1 (by decide)).1,
   ((c9_bucket_validation "gs://bucket" " US-EAST1 " "proj" "20240101000000"
      (by decide) (by decide)).2.1 (by decide) (by decide)).1⟩

/-! ## Hugging Face token check

Source (setup cell, after `aiplatform.init`):
```
HF_TOKEN = ""
assert (HF_TOKEN), "Please provide a read HF_TOKEN to load models from Hugging Face, or select a different model source."
```
The training and deployment cells run only after this cell succeeds. -/

def hfTokenAssertMsg : String :=
  "Please provide a read HF_TOKEN to load models from Hugging Face, or select a different model source."

/-- `assert (HF_TOKEN)`: a Python string is falsy exactly when empty. -/
def hfTokenAssert (HF_TOKEN : String) : Option String :=
  if HF_TOKEN = "" then some hfTokenAssertMsg else none

/-- Sequential execution after the setup cell: the Finetune cell (and
everything after it) runs only if the HF_TOKEN assertion passed. -/
def runFromSetup (p : FinetuneParams) (t : DateTime) :
    List SdkCall × Option String :=
  match hfTokenAssert p.HF_TOKEN with
  | some e => ([], some e)
  | none => finetuneCell p t

/-- C10: with an empty HF_TOKEN the setup assertion fails and no training
or deployment SDK call is made; with a non-empty HF_TOKEN the check
passes and the token is forwarded both as the
`--huggingface_access_token` training argument and as the serving
container's HF_TOKEN environment variable. -/
theorem c10_hf_token_required (p : FinetuneParams) (t : DateTime) :
    (p.HF_TOKEN = "" →
      hfTokenAssert p.HF_TOKEN = some hfTokenAssertMsg ∧
      runFromSetup p t = ([], some hfTokenAssertMsg)) ∧
    (¬ p.HF_TOKEN = "" →
      hfTokenAssert p.HF_TOKEN = none ∧
      ("--huggingface_access_token=" ++ p.HF_TOKEN) ∈ trainJobArgs p t ∧
      ("HF_TOKEN", p.HF_TOKEN) ∈
        deployEnvVars (base_model_path ++ p.MODEL_ID) p.HF_TOKEN) := by
  refine ⟨fun h => ?_, fun h => ?_⟩
  · constructor <;> simp [hfTokenAssert, runFromSetup, h]
  · refine ⟨by simp [hfTokenAssert, h], by simp [trainJobArgs], ?_⟩
    simp [deployEnvVars, h]

/-- Witness for C10 at the empty token and at the token "tok". -/
theorem c10_hf_token_required_witness :
    runFromSetup
      { MODEL_ID := "gemma-2b", ACCELERATOR_TYPE := "NVIDIA_TESLA_V100",
        finetuning_precision_mode := "4bit",
        dataset_name := "timdettmers/openassistant-guanaco",
        instruct_column_in_dataset := "text",
        per_device_train_batch_size := 1, max_steps := 10,
        learning_rate := "0.0002", lora_rank := 4, lora_alpha := 64,
        lora_dropout := "0.1", HF_TOKEN := "",
        STAGING_BUCKET := "gs://bucket/temporal" }
      ⟨2024, 1, 2, 3, 4, 5⟩ = ([], some hfTokenAssertMsg) ∧
    ("HF_TOKEN", "tok") ∈ deployEnvVars (base_model_path ++ "gemma-2b") "tok" :=
  ⟨((c10_hf_token_required
      { MODEL_ID := "gemma-2b", ACCELERATOR_TYPE := "NVIDIA_TESLA_V100",
        finetuning_precision_mode := "4bit",
        dataset_name := "timdettmers/openassistant-guanaco",
        instruct_column_in_dataset := "text",
        per_device_train_batch_size := 1, max_steps := 10,
        learning_rate := "0.0002", lora_rank := 4, lora_alpha := 64,
        lora_dropout := "0.1", HF_TOKEN := "",
        STAGING_BUCKET := "gs://bucket/temporal" }
      ⟨2024, 1, 2, 3, 4, 5⟩).1 rfl).2,
   ((c10_hf_token_required
      { MODEL_ID := "gemma-2b", ACCELERATOR_TYPE := "NVIDIA_TESLA_V100",
        finetuning_precision_mode := "4bit",
        dataset_name := "timdettmers/openassistant-guanaco",
        instruct_column_in_dataset := "text",
        per_device_train_batch_size := 1, max_steps := 10,
        learning_rate := "0.0002", lora_rank := 4, lora_alpha := 64,
        lora_dropout := "0.1", HF_TOKEN := "tok",
        STAGING_BUCKET := "gs://bucket/temporal" }
      ⟨2024, 1, 2, 3, 4, 5⟩).2 (by decide)).2.2⟩
